import Mathlib

/-!
Shallow embedding of the attendance-decision core of the atn-bot
repository: the work-schedule / lateness classifier
(src/database/schedule_models.py, src/config.py), the geofence
validator (src/utils/location.py) and the attendance store
(src/database/models.py over the schema of src/database/db.py).

Instants are modelled as absolute microseconds (a natural number):
a Python `datetime` is `day * usPerDay + time-of-day-in-microseconds`,
with day 0 chosen to be a Monday so that Python's
`weekday() + 1` numbering (1 = Monday .. 7 = Sunday) is `day % 7 + 1`.
Python floats that carry distances are modelled as rationals; the
geodesic computation itself (the external geopy library) is an
uninterpreted parameter.
-/

namespace AtnBot

/-- Microseconds in one second. -/
def usPerSec : Nat := 1000000

/-- Microseconds in one minute. -/
def usPerMin : Nat := 60 * usPerSec

/-- Microseconds in one hour. -/
def usPerHour : Nat := 60 * usPerMin

/-- Microseconds in one day. -/
def usPerDay : Nat := 24 * usPerHour

/-- Calendar-date index of an instant (`datetime.date()`). -/
def dateOf (t : Nat) : Nat := t / usPerDay

/-- Time-of-day of an instant, in microseconds since midnight. -/
def todOf (t : Nat) : Nat := t % usPerDay

/-- Python `datetime.time` value: wall-clock hour and minute. -/
structure ClockTime where
  hour : Nat
  minute : Nat
deriving DecidableEq, Repr

/-- Configuration fields of `Config` (src/config.py) that the schedule
classifier reads: parsed work start and end times, grace period, work-day
numbers, and the four notification offsets in minutes. -/
structure ScheduleConfig where
  startHour : Nat
  startMinute : Nat
  endHour : Nat
  endMinute : Nat
  gracePeriodMinutes : Nat
  workDays : List Nat
  morningReminderMinutesBefore : Int
  lateWarningMinutesAfter : Int
  checkoutReminderMinutesBefore : Int
  forgottenCheckoutMinutesAfter : Int
deriving DecidableEq, Repr

/-- Work start time as a clock time (`Config.get_work_start_time`). -/
def ScheduleConfig.workStartTime (cfg : ScheduleConfig) : ClockTime :=
  ⟨cfg.startHour, cfg.startMinute⟩

/-- Work end time as a clock time (`Config.get_work_end_time`). -/
def ScheduleConfig.workEndTime (cfg : ScheduleConfig) : ClockTime :=
  ⟨cfg.endHour, cfg.endMinute⟩

/-- Membership test of `Config.is_working_day`: the 1-based day number is
in the configured work-day list. -/
def ScheduleConfig.isWorkingDayNum (cfg : ScheduleConfig) (dayNumber : Nat) : Bool :=
  cfg.workDays.contains dayNumber

/-- Python weekday number of a date index, in the repository's 1 = Monday
.. 7 = Sunday convention (`check_date.weekday() + 1`). -/
def dayNumberOf (d : Nat) : Nat := d % 7 + 1

/-- Translation of `WorkSchedule.is_working_day` on an explicit date. -/
def is_working_day (cfg : ScheduleConfig) (d : Nat) : Bool :=
  cfg.isWorkingDayNum (dayNumberOf d)

/-- Translation of `checkin_time.replace(hour=start.hour, minute=start.minute,
second=0, microsecond=0)` in `WorkSchedule.is_late_checkin`: the scheduled
work-start instant on the check-in's calendar date. -/
def scheduled_start (cfg : ScheduleConfig) (t : Nat) : Nat :=
  dateOf t * usPerDay + (cfg.startHour * 60 + cfg.startMinute) * usPerMin

/-- Grace deadline: `scheduled_start + timedelta(minutes=grace_period)`. -/
def grace_deadline (cfg : ScheduleConfig) (t : Nat) : Nat :=
  scheduled_start cfg t + cfg.gracePeriodMinutes * usPerMin

/-- Translation of `WorkSchedule.is_late_checkin`.  On the late branch the
code computes `int(late_by.total_seconds() / 60)`; the difference is
positive there, so Python's `int` truncation is floor division of the
microsecond difference by one minute of microseconds. -/
def is_late_checkin (cfg : ScheduleConfig) (t : Nat) : Bool × Nat :=
  if t ≤ grace_deadline cfg t then
    (false, 0)
  else
    (true, (t - grace_deadline cfg t) / usPerMin)

/-- Translation of `WorkSchedule.get_checkin_status`. -/
def get_checkin_status (cfg : ScheduleConfig) (t : Nat) : String :=
  let r := is_late_checkin cfg t
  if !r.1 then "on_time"
  else if r.2 ≤ 30 then "late"
  else "very_late"

/-- Lateness written from the spec's words: `scheduledStart` is the
configured work-start time on the instant's calendar date,
`graceDeadline = scheduledStart + gracePeriodMinutes`; an instant at or
before the deadline is not late with 0 minutes, and a later instant is
late by `floor(totalSeconds(t - graceDeadline) / 60)` minutes. -/
def latenessSpec (cfg : ScheduleConfig) (t : Nat) : Bool × Nat :=
  let startOfDay := dateOf t * usPerDay
  let scheduledStart := startOfDay + (cfg.startHour * 60 + cfg.startMinute) * usPerMin
  let graceDeadline := scheduledStart + cfg.gracePeriodMinutes * usPerMin
  if t ≤ graceDeadline then
    (false, 0)
  else
    (true, ((t - graceDeadline) / usPerSec) / 60)

/-- Translation of the inner helper `minutes_to_time` of
`Config.get_notification_times`: reduce a (possibly negative) minute count
modulo `24 * 60` and split into hour and minute.  Python's `%` on integers
returns a non-negative remainder, which is `Int.emod`. -/
def minutes_to_time (totalMinutes : Int) : ClockTime :=
  let m := (totalMinutes.emod 1440).toNat
  ⟨m / 60, m % 60⟩

/-- Translation of `Config.get_notification_times`: the returned dict,
as an association list keyed by the exact strings the code uses. -/
def get_notification_times (cfg : ScheduleConfig) : List (String × ClockTime) :=
  let startMinutes : Int := cfg.startHour * 60 + cfg.startMinute
  let endMinutes : Int := cfg.endHour * 60 + cfg.endMinute
  [("morning_reminder", minutes_to_time (startMinutes - cfg.morningReminderMinutesBefore)),
   ("late_warning", minutes_to_time (startMinutes + cfg.lateWarningMinutesAfter)),
   ("checkout_reminder", minutes_to_time (endMinutes - cfg.checkoutReminderMinutesBefore)),
   ("forgotten_checkout", minutes_to_time (endMinutes + cfg.forgottenCheckoutMinutesAfter))]

/-- Clock time written from the spec's words: a minute count reduced
mod 1440 and expressed as a clock time. -/
def clockOfMinutesSpec (totalMinutes : Int) : ClockTime :=
  ⟨((totalMinutes.emod 1440).toNat) / 60, ((totalMinutes.emod 1440).toNat) % 60⟩

/-- Hour component of an instant (`datetime.hour`). -/
def hourOf (t : Nat) : Nat := todOf t / usPerHour

/-- Minute component of an instant (`datetime.minute`). -/
def minuteOf (t : Nat) : Nat := t % usPerHour / usPerMin

/-- Translation of `WorkSchedule.should_send_reminder`: on a non-working
day return false; an unknown reminder type returns false; otherwise fire
when the current and target minutes-since-midnight differ by at most 1. -/
def should_send_reminder (cfg : ScheduleConfig) (t : Nat) (reminderType : String) : Bool :=
  if !is_working_day cfg (dateOf t) then
    false
  else
    match (get_notification_times cfg).lookup reminderType with
    | none => false
    | some target =>
      let currentMinutes : Int := hourOf t * 60 + minuteOf t
      let targetMinutes : Int := target.hour * 60 + target.minute
      (currentMinutes - targetMinutes).natAbs ≤ 1

/-!
Geofence validator (src/utils/location.py).  Coordinates and distances
are rationals; the geopy geodesic computation is an uninterpreted
function parameter `geo` (the repository treats it as an external
collaborator).  The two typed failures the spec names are modelled as an
error enum.
-/

/-- Typed failures of the geofence validator. -/
inductive LocError where
  | invalidCoordinate
  | invalidConfiguration
deriving DecidableEq, Repr

/-- Translation of `validate_coordinates`: latitude in [-90, 90] and
longitude in [-180, 180].  NaN and infinity have no rational
counterpart, so those guards are vacuous here. -/
def validate_coordinates (lat lon : ℚ) : Bool :=
  decide (-90 ≤ lat) && decide (lat ≤ 90) && decide (-180 ≤ lon) && decide (lon ≤ 180)

/-- Translation of `calculate_distance`: validate both points, then
return the geodesic distance `geo` of the two points. -/
def calculate_distance (geo : ℚ → ℚ → ℚ → ℚ → ℚ) (lat1 lon1 lat2 lon2 : ℚ) :
    Except LocError ℚ :=
  if !validate_coordinates lat1 lon1 then
    .error .invalidCoordinate
  else if !validate_coordinates lat2 lon2 then
    .error .invalidCoordinate
  else
    .ok (geo lat1 lon1 lat2 lon2)

/-- Python `int()` applied to a real number: truncation toward zero. -/
def pyTrunc (q : ℚ) : Int :=
  if 0 ≤ q then ⌊q⌋ else ⌈q⌉

/-- Translation of `is_within_radius`: coerce the radius with `int()`,
reject a non-positive result, compute the distance, and return
`(distance <= radius, distance)` with the raw distance compared against
the truncated radius. -/
def is_within_radius (geo : ℚ → ℚ → ℚ → ℚ → ℚ)
    (userLat userLon schoolLat schoolLon radiusMeters : ℚ) :
    Except LocError (Bool × ℚ) :=
  let r := pyTrunc radiusMeters
  if r ≤ 0 then
    .error .invalidConfiguration
  else
    match calculate_distance geo userLat userLon schoolLat schoolLon with
    | .error e => .error e
    | .ok dist => .ok (decide (dist ≤ (r : ℚ)), dist)

/-!
Attendance store (src/database/models.py over the attendance table of
src/database/db.py).  A database state is the list of attendance rows;
the UNIQUE(user_id, date) constraint makes the INSERT of `check_in`
raise IntegrityError exactly when a row with the same (user, date)
already exists, which the code converts into a `False` return with the
transaction rolled back (state unchanged).
-/

/-- Row of the attendance table (the columns the store operations touch). -/
structure AttendanceRow where
  user_id : Int
  date : Nat
  check_in_time : Nat
  check_in_latitude : ℚ
  check_in_longitude : ℚ
  check_out_time : Option Nat
  check_out_latitude : Option ℚ
  check_out_longitude : Option ℚ
  total_hours : Option ℚ
  status : String
  late_minutes : Nat
  checkin_status : String
deriving DecidableEq, Repr

/-- State of the attendance table. -/
abbrev AttendanceDB := List AttendanceRow

/-- Predicate matching the rows of one (user, date) pair. -/
def rowMatches (u : Int) (d : Nat) (r : AttendanceRow) : Bool :=
  r.user_id == u && r.date == d

/-- Existence of an attendance row for (user, date): the condition under
which the UNIQUE(user_id, date) constraint rejects an insert. -/
def hasRecord (db : AttendanceDB) (u : Int) (d : Nat) : Bool :=
  List.any db (rowMatches u d)

/-- Number of attendance rows stored for (user, date). -/
def countFor (db : AttendanceDB) (u : Int) (d : Nat) : Nat :=
  (List.filter (rowMatches u d) db).length

/-- Row created by a successful `Attendance.check_in`. -/
def mkCheckInRow (u : Int) (lat lon : ℚ) (t : Nat) (lateMinutes : Nat)
    (checkinStatus : String) : AttendanceRow :=
  { user_id := u
    date := dateOf t
    check_in_time := t
    check_in_latitude := lat
    check_in_longitude := lon
    check_out_time := none
    check_out_latitude := none
    check_out_longitude := none
    total_hours := none
    status := "checked_in"
    late_minutes := lateMinutes
    checkin_status := checkinStatus }

/-- Translation of `Attendance.check_in` (with an explicit timestamp):
INSERT a fresh row for (user, date-of-timestamp); the UNIQUE constraint
turns a duplicate into IntegrityError, caught and returned as `False`
with the state unchanged. -/
def check_in (db : AttendanceDB) (u : Int) (lat lon : ℚ) (t : Nat)
    (lateMinutes : Nat) (checkinStatus : String) : Bool × AttendanceDB :=
  if hasRecord db u (dateOf t) then
    (false, db)
  else
    (true, db ++ [mkCheckInRow u lat lon t lateMinutes checkinStatus])

/-- Fields written by the UPDATE of `Attendance.check_out`. -/
def applyCheckOut (t : Nat) (lat lon : ℚ) (totalHours : ℚ)
    (r : AttendanceRow) : AttendanceRow :=
  { r with
    check_out_time := some t
    check_out_latitude := some lat
    check_out_longitude := some lon
    total_hours := some totalHours
    status := "checked_out" }

/-- Translation of `Attendance.check_out` (with an explicit timestamp):
SELECT the row for (user, date-of-timestamp); if none, return `False`;
otherwise compute total hours from the stored check-in time and UPDATE
the row's check-out fields, returning `True`.  The code never tests
whether the check-out fields are already set. -/
def check_out (db : AttendanceDB) (u : Int) (lat lon : ℚ) (t : Nat) :
    Bool × AttendanceDB :=
  let d := dateOf t
  match List.find? (rowMatches u d) db with
  | none => (false, db)
  | some row =>
    let totalHours : ℚ := ((t : ℚ) - (row.check_in_time : ℚ)) / ((3600 : ℚ) * (usPerSec : ℚ))
    (true, List.map (fun r => if rowMatches u d r then applyCheckOut t lat lon totalHours r else r) db)

/-- Translation of the query of `Attendance.get_today_status`: the row
for (user, date), if any. -/
def get_today_status_query (db : AttendanceDB) (u : Int) (d : Nat) :
    Option AttendanceRow :=
  List.find? (rowMatches u d) db

/-- Check-in request as issued by a caller of `Attendance.check_in`. -/
structure CheckInReq where
  user : Int
  lat : ℚ
  lon : ℚ
  t : Nat
  lateMinutes : Nat
  checkinStatus : String
deriving DecidableEq, Repr

/-- Run a sequence of check-in attempts in order (the serialization of
any interleaving of the atomic single-row transactions), collecting each
attempt's boolean outcome and the final state. -/
def runCheckIns (db : AttendanceDB) : List CheckInReq → List Bool × AttendanceDB
  | [] => ([], db)
  | r :: rs =>
    let step := check_in db r.user r.lat r.lon r.t r.lateMinutes r.checkinStatus
    let rest := runCheckIns step.2 rs
    (step.1 :: rest.1, rest.2)

/-!
Exception totalization (src/database/models.py).  Every public store
operation wraps its body in `try/except Exception`, returning `False`
or `None` on any internal failure.  The two failure sources the code
can hit before or inside the transaction are modelled by an oracle:
`Config.now()`/`Config.today()` raising (these attributes are not
defined on `Config` in src/config.py, so calling them raises
AttributeError) and the database layer raising `sqlite3.Error`.
-/

/-- Oracle for the exceptions the Python runtime can raise inside a
store operation. -/
structure PyEnv where
  nowRaises : Bool
  dbRaises : Bool
deriving DecidableEq, Repr

/-- Translation of `Attendance.check_in` with its exception handling:
when no explicit timestamp is supplied `Config.now()` is consulted (and
may raise); any database-layer error likewise yields `False` with the
state unchanged. -/
def check_in_total (env : PyEnv) (db : AttendanceDB) (u : Int) (lat lon : ℚ)
    (tArg : Option Nat) (tNow : Nat) (lateMinutes : Nat) (checkinStatus : String) :
    Bool × AttendanceDB :=
  if tArg.isNone && env.nowRaises then
    (false, db)
  else if env.dbRaises then
    (false, db)
  else
    check_in db u lat lon (tArg.getD tNow) lateMinutes checkinStatus

/-- Translation of `Attendance.check_out` with its exception handling. -/
def check_out_total (env : PyEnv) (db : AttendanceDB) (u : Int) (lat lon : ℚ)
    (tArg : Option Nat) (tNow : Nat) : Bool × AttendanceDB :=
  if tArg.isNone && env.nowRaises then
    (false, db)
  else if env.dbRaises then
    (false, db)
  else
    check_out db u lat lon (tArg.getD tNow)

/-- Translation of `Attendance.get_today_status` with its exception
handling: `Config.today()` is always consulted, and any failure is
converted into `None`. -/
def get_today_status_total (env : PyEnv) (db : AttendanceDB) (u : Int)
    (today : Nat) : Option AttendanceRow :=
  if env.nowRaises then
    none
  else if env.dbRaises then
    none
  else
    get_today_status_query db u today

/-!
Helper definitions and lemmas shared by the claim theorems.
-/

/-- Time-of-day cutoff beyond which a check-in is late: work-start
minutes plus grace minutes, in microseconds. -/
def lateCutoff (cfg : ScheduleConfig) : Nat :=
  (cfg.startHour * 60 + cfg.startMinute) * usPerMin + cfg.gracePeriodMinutes * usPerMin

/-- Lateness as a function of time-of-day alone. -/
def latenessOfTod (cfg : ScheduleConfig) (tod : Nat) : Bool × Nat :=
  if tod ≤ lateCutoff cfg then (false, 0)
  else (true, (tod - lateCutoff cfg) / usPerMin)

theorem grace_deadline_eq (cfg : ScheduleConfig) (t : Nat) :
    grace_deadline cfg t = dateOf t * usPerDay + lateCutoff cfg := by
  unfold grace_deadline scheduled_start lateCutoff
  rw [Nat.add_assoc]

theorem date_tod_eq (t : Nat) : dateOf t * usPerDay + todOf t = t := by
  unfold dateOf todOf
  rw [Nat.mul_comm]
  exact Nat.div_add_mod t usPerDay

/-- Lateness of a check-in depends only on its time-of-day. -/
theorem is_late_checkin_eq_tod (cfg : ScheduleConfig) (t : Nat) :
    is_late_checkin cfg t = latenessOfTod cfg (todOf t) := by
  have ht : dateOf t * usPerDay + todOf t = t := date_tod_eq t
  unfold is_late_checkin latenessOfTod
  rw [grace_deadline_eq]
  by_cases h : todOf t ≤ lateCutoff cfg
  · rw [if_pos (by omega), if_pos h]
  · rw [if_neg (by omega), if_neg h]
    have hsub : t - (dateOf t * usPerDay + lateCutoff cfg) = todOf t - lateCutoff cfg := by
      omega
    rw [hsub]

/-- Default schedule of the repository's configuration: work 08:00-17:00,
grace period 15 minutes, work days Monday-Friday, notification offsets
15/15/15/30 minutes. -/
def defaultConfig : ScheduleConfig :=
  { startHour := 8
    startMinute := 0
    endHour := 17
    endMinute := 0
    gracePeriodMinutes := 15
    workDays := [1, 2, 3, 4, 5]
    morningReminderMinutesBefore := 15
    lateWarningMinutesAfter := 15
    checkoutReminderMinutesBefore := 15
    forgottenCheckoutMinutesAfter := 30 }

/-- Instant on a given day index at a wall-clock hour, minute and second. -/
def mkInstant (day h m s : Nat) : Nat :=
  day * usPerDay + ((h * 60 + m) * 60 + s) * usPerSec

/-!
Claim theorems.
-/

/-- C3: for every check-in instant, with the scheduled start equal to the
configured work-start time on the instant's calendar date and the grace
deadline equal to the scheduled start plus the grace period, the code's
lateness result equals the spec's: not late with 0 minutes at or before
the deadline, otherwise late by the floor of the deadline-to-instant
difference in whole minutes (a non-negative integer by construction),
measured from the end of the grace window. -/
theorem checkin_lateness_matches_spec (cfg : ScheduleConfig) (t : Nat) :
    is_late_checkin cfg t = latenessSpec cfg t := by
  unfold is_late_checkin latenessSpec grace_deadline scheduled_start
  dsimp only
  have hdiv : ∀ n : Nat, n / usPerSec / 60 = n / usPerMin := by
    intro n
    rw [Nat.div_div_eq_div_mul]
    unfold usPerMin
    rw [Nat.mul_comm]
  split
  · rfl
  · rw [hdiv]

/-- C4 counterexample: with grace period 15 minutes and work start 08:00,
a check-in at 08:15:01 is one second past the grace deadline, so the code
flags it late but floors the minutes-late to 0 — not 1 minute as the
claim states. -/
theorem lateness_081501_not_one_minute :
    is_late_checkin defaultConfig (mkInstant 0 8 15 1) = (true, 0) ∧
    is_late_checkin defaultConfig (mkInstant 0 8 15 1) ≠ (true, 1) := by
  constructor
  · decide
  · decide

/-- C4 amended: with grace period 15 minutes and work start 08:00, a
check-in at 08:15:00 is not late (0 minutes); at 08:15:01 it is flagged
late with minutes-late 0 (one second past the deadline floors to 0) and
classified 'late'; at 08:45:00 it is late by 30 minutes and classified
'late'; at 08:45:01 it is 30 minutes late (floored) and still 'late'; at
08:46:00 it is 31 minutes late and classified 'very_late'. -/
theorem lateness_boundaries_amended :
    is_late_checkin defaultConfig (mkInstant 0 8 15 0) = (false, 0) ∧
    is_late_checkin defaultConfig (mkInstant 0 8 15 1) = (true, 0) ∧
    get_checkin_status defaultConfig (mkInstant 0 8 15 1) = "late" ∧
    is_late_checkin defaultConfig (mkInstant 0 8 45 0) = (true, 30) ∧
    get_checkin_status defaultConfig (mkInstant 0 8 45 0) = "late" ∧
    is_late_checkin defaultConfig (mkInstant 0 8 45 1) = (true, 30) ∧
    get_checkin_status defaultConfig (mkInstant 0 8 45 1) = "late" ∧
    is_late_checkin defaultConfig (mkInstant 0 8 46 0) = (true, 31) ∧
    get_checkin_status defaultConfig (mkInstant 0 8 46 0) = "very_late" := by
  decide

/-- C10: the lateness computation depends only on the time-of-day of its
argument: two check-in instants with the same time-of-day (hour, minute,
second and microsecond) receive identical `is_late_checkin` and
`get_checkin_status` results for any schedule configuration, regardless
of calendar date or weekday. -/
theorem lateness_depends_only_on_tod (cfg : ScheduleConfig) (t1 t2 : Nat)
    (h : todOf t1 = todOf t2) :
    is_late_checkin cfg t1 = is_late_checkin cfg t2 ∧
    get_checkin_status cfg t1 = get_checkin_status cfg t2 := by
  have he : is_late_checkin cfg t1 = is_late_checkin cfg t2 := by
    rw [is_late_checkin_eq_tod, is_late_checkin_eq_tod, h]
  refine ⟨he, ?_⟩
  unfold get_checkin_status
  rw [he]

/-- C10 witness: 09:00:00 on day 0 (a Monday) and 09:00:00 on day 6 (a
Sunday) share a time-of-day and receive the same lateness result and
status from the default schedule. -/
theorem lateness_depends_only_on_tod_witness :
    todOf (mkInstant 0 9 0 0) = todOf (mkInstant 6 9 0 0) ∧
    (is_late_checkin defaultConfig (mkInstant 0 9 0 0) =
       is_late_checkin defaultConfig (mkInstant 6 9 0 0) ∧
     get_checkin_status defaultConfig (mkInstant 0 9 0 0) =
       get_checkin_status defaultConfig (mkInstant 6 9 0 0)) :=
  ⟨by decide,
   lateness_depends_only_on_tod defaultConfig (mkInstant 0 9 0 0) (mkInstant 6 9 0 0)
     (by decide)⟩

/-- Schedule with work start 00:10 and morning offset 30 minutes, the
spec's mod-1440 wrap example. -/
def wrapConfig : ScheduleConfig :=
  { defaultConfig with startHour := 0, startMinute := 10, morningReminderMinutesBefore := 30 }

theorem minutes_to_time_bounds (m : Int) :
    (minutes_to_time m).hour < 24 ∧ (minutes_to_time m).minute < 60 := by
  unfold minutes_to_time
  dsimp only
  have h1 : 0 ≤ m.emod 1440 := Int.emod_nonneg m (by norm_num)
  have h2 : m.emod 1440 < 1440 := Int.emod_lt_of_pos m (by norm_num)
  omega

/-- C7: for every configuration, each of the four notification trigger
times equals the corresponding work start or end minute count shifted by
its offset and reduced mod 1440 (morning = start − before, late warning
= start + after, checkout reminder = end − before, forgotten checkout =
end + after), every produced value is a valid clock time, and in
particular work start 00:10 with a 30-minute morning offset wraps to
23:40 rather than a negative or out-of-range time. -/
theorem notification_times_mod_1440 (cfg : ScheduleConfig) :
    (get_notification_times cfg).lookup "morning_reminder" =
      some (clockOfMinutesSpec
        ((cfg.startHour * 60 + cfg.startMinute : Int) - cfg.morningReminderMinutesBefore)) ∧
    (get_notification_times cfg).lookup "late_warning" =
      some (clockOfMinutesSpec
        ((cfg.startHour * 60 + cfg.startMinute : Int) + cfg.lateWarningMinutesAfter)) ∧
    (get_notification_times cfg).lookup "checkout_reminder" =
      some (clockOfMinutesSpec
        ((cfg.endHour * 60 + cfg.endMinute : Int) - cfg.checkoutReminderMinutesBefore)) ∧
    (get_notification_times cfg).lookup "forgotten_checkout" =
      some (clockOfMinutesSpec
        ((cfg.endHour * 60 + cfg.endMinute : Int) + cfg.forgottenCheckoutMinutesAfter)) ∧
    (∀ p ∈ get_notification_times cfg, p.2.hour < 24 ∧ p.2.minute < 60) ∧
    (get_notification_times wrapConfig).lookup "morning_reminder" =
      some ⟨23, 40⟩ := by
  refine ⟨rfl, rfl, rfl, rfl, ?_, by decide⟩
  intro p hp
  unfold get_notification_times at hp
  simp only [List.mem_cons, List.not_mem_nil, or_false] at hp
  rcases hp with h | h | h | h <;> subst h <;> exact minutes_to_time_bounds _

/-- C8: for every instant and each reminder kind carried by the
notification-times table (exactly the four returned key names), the
reminder fires iff the instant's date is a working day and the instant's
minutes-since-midnight is within 1 minute of the kind's trigger time;
and on a non-working day no reminder of any kind fires. -/
theorem should_send_reminder_spec (cfg : ScheduleConfig) (t : Nat)
    (kind : String) (target : ClockTime)
    (h : (get_notification_times cfg).lookup kind = some target) :
    (should_send_reminder cfg t kind =
      (is_working_day cfg (dateOf t) &&
        decide ((((hourOf t : Int) * 60 + minuteOf t) -
          ((target.hour : Int) * 60 + target.minute)).natAbs ≤ 1))) ∧
    (∀ k : String, is_working_day cfg (dateOf t) = false →
      should_send_reminder cfg t k = false) := by
  constructor
  · unfold should_send_reminder
    rw [h]
    cases hw : is_working_day cfg (dateOf t) <;> simp
  · intro k hw
    unfold should_send_reminder
    rw [hw]
    rfl

/-- C8 witness: with the default schedule, the morning reminder's
trigger is 07:45; at 07:45:30 on a Monday the fire decision equals the
working-day-and-tolerance test (and evaluates to true), and on a
Saturday every kind is refused. -/
theorem should_send_reminder_spec_witness :
    (get_notification_times defaultConfig).lookup "morning_reminder" = some ⟨7, 45⟩ ∧
    should_send_reminder defaultConfig (mkInstant 0 7 45 30) "morning_reminder" =
      (is_working_day defaultConfig (dateOf (mkInstant 0 7 45 30)) &&
        decide ((((hourOf (mkInstant 0 7 45 30) : Int) * 60 + minuteOf (mkInstant 0 7 45 30)) -
          (((7 : Nat) : Int) * 60 + (45 : Nat))).natAbs ≤ 1)) ∧
    should_send_reminder defaultConfig (mkInstant 0 7 45 30) "morning_reminder" = true ∧
    should_send_reminder defaultConfig (mkInstant 5 7 45 30) "late_warning" = false :=
  ⟨rfl,
   (should_send_reminder_spec defaultConfig (mkInstant 0 7 45 30) "morning_reminder"
      ⟨7, 45⟩ rfl).1,
   by decide,
   (should_send_reminder_spec defaultConfig (mkInstant 5 7 45 30) "late_warning"
      ⟨8, 15⟩ rfl).2 "late_warning" (by decide)⟩

theorem pyTrunc_intCast (n : Int) : pyTrunc (n : ℚ) = n := by
  unfold pyTrunc
  split
  · exact Int.floor_intCast n
  · exact Int.ceil_intCast n

theorem validate_coordinates_of (lat lon : ℚ)
    (h1 : -90 ≤ lat) (h2 : lat ≤ 90) (h3 : -180 ≤ lon) (h4 : lon ≤ 180) :
    validate_coordinates lat lon = true := by
  unfold validate_coordinates
  rw [decide_eq_true h1, decide_eq_true h2, decide_eq_true h3, decide_eq_true h4]
  rfl

/-- Evaluation of `is_within_radius` on the success path: valid
coordinates and a radius whose truncation is positive yield the pair of
the raw-distance comparison against the truncated radius and the raw
distance itself. -/
theorem is_within_radius_ok (geo : ℚ → ℚ → ℚ → ℚ → ℚ)
    (uLat uLon cLat cLon radius : ℚ)
    (hu : validate_coordinates uLat uLon = true)
    (hc : validate_coordinates cLat cLon = true)
    (hr : 0 < pyTrunc radius) :
    is_within_radius geo uLat uLon cLat cLon radius =
      .ok (decide (geo uLat uLon cLat cLon ≤ ((pyTrunc radius : Int) : ℚ)),
           geo uLat uLon cLat cLon) := by
  unfold is_within_radius calculate_distance
  rw [if_neg (by omega), if_neg (by rw [hu]; decide), if_neg (by rw [hc]; decide)]

theorem pyTrunc_101_half : pyTrunc ((101 : ℚ)/2) = 50 := by
  unfold pyTrunc
  rw [if_pos (by norm_num), Int.floor_eq_iff]
  norm_num

/-- C5: for valid user and center coordinates and a positive integer
radius, `is_within_radius` returns `(b, d)` where `d` is exactly the
geodesic distance `geo` of the two points and `b` decides `d ≤ radius`
on the raw distance with an inclusive boundary: a point exactly at the
radius yields true, a strictly farther point yields false. -/
theorem is_within_radius_inclusive (geo : ℚ → ℚ → ℚ → ℚ → ℚ)
    (uLat uLon cLat cLon : ℚ) (r : Int)
    (hu : validate_coordinates uLat uLon = true)
    (hc : validate_coordinates cLat cLon = true)
    (hr : 0 < r) :
    is_within_radius geo uLat uLon cLat cLon (r : ℚ) =
      .ok (decide (geo uLat uLon cLat cLon ≤ (r : ℚ)), geo uLat uLon cLat cLon) := by
  rw [is_within_radius_ok geo uLat uLon cLat cLon (r : ℚ) hu hc
    (by rw [pyTrunc_intCast]; omega)]
  rw [pyTrunc_intCast]

/-- C5 witness: with center (41.2995, 69.2401) and radius 50, a point
whose geodesic distance is exactly 50.0 m is accepted with distance
50.0, and one at 50.1 m is rejected with distance 50.1. -/
theorem is_within_radius_inclusive_witness :
    is_within_radius (fun _ _ _ _ => (50 : ℚ))
      (412995/10000) (692401/10000) (412995/10000) (692401/10000) ((50 : Int) : ℚ) =
      .ok (true, 50) ∧
    is_within_radius (fun _ _ _ _ => (501/10 : ℚ))
      (412995/10000) (692401/10000) (412995/10000) (692401/10000) ((50 : Int) : ℚ) =
      .ok (false, 501/10) := by
  constructor
  · rw [is_within_radius_inclusive (fun _ _ _ _ => (50 : ℚ))
      (412995/10000) (692401/10000) (412995/10000) (692401/10000) 50
      (validate_coordinates_of _ _ (by norm_num) (by norm_num) (by norm_num) (by norm_num))
      (validate_coordinates_of _ _ (by norm_num) (by norm_num) (by norm_num) (by norm_num))
      (by norm_num)]
    have hb : decide ((50 : ℚ) ≤ ((50 : Int) : ℚ)) = true := by
      rw [decide_eq_true_eq]
      norm_num
    rw [hb]
  · rw [is_within_radius_inclusive (fun _ _ _ _ => (501/10 : ℚ))
      (412995/10000) (692401/10000) (412995/10000) (692401/10000) 50
      (validate_coordinates_of _ _ (by norm_num) (by norm_num) (by norm_num) (by norm_num))
      (validate_coordinates_of _ _ (by norm_num) (by norm_num) (by norm_num) (by norm_num))
      (by norm_num)]
    have hb : decide ((501/10 : ℚ) ≤ ((50 : Int) : ℚ)) = false := by
      rw [decide_eq_false_iff_not]
      norm_num
    rw [hb]

/-- C6 counterexample: the radius 50.5 is positive but not an integer,
yet `is_within_radius` does not fail — Python's `int()` truncates it to
50 and the call succeeds, refuting the claim that every
non-positive-integer radius is rejected with a validation error. -/
theorem non_integer_radius_accepted :
    (¬ ∃ n : Int, ((101 : ℚ)/2) = (n : ℚ)) ∧ (0 : ℚ) < (101 : ℚ)/2 ∧
    is_within_radius (fun _ _ _ _ => (50 : ℚ)) 41 69 41 69 ((101 : ℚ)/2) =
      .ok (true, 50) := by
  refine ⟨?_, by norm_num, ?_⟩
  · rintro ⟨n, hn⟩
    have h2 : (101 : ℚ) = (n : ℚ) * 2 := by
      field_simp at hn
      linarith
    have h3 : (101 : Int) = n * 2 := by exact_mod_cast h2
    omega
  · rw [is_within_radius_ok (fun _ _ _ _ => (50 : ℚ)) 41 69 41 69 ((101 : ℚ)/2)
      (validate_coordinates_of _ _ (by norm_num) (by norm_num) (by norm_num) (by norm_num))
      (validate_coordinates_of _ _ (by norm_num) (by norm_num) (by norm_num) (by norm_num))
      (by rw [pyTrunc_101_half]; norm_num)]
    rw [pyTrunc_101_half]
    have hb : decide ((50 : ℚ) ≤ ((50 : Int) : ℚ)) = true := by
      rw [decide_eq_true_eq]
      norm_num
    rw [hb]

/-- C6 amended: `is_within_radius` coerces the radius with Python's
`int()` (truncation toward zero) and fails with the configuration
validation error exactly when the truncated value is non-positive; a
numeric radius whose truncation is at least 1 — integer or not — is
accepted, with the comparison performed against the truncated integer
radius. -/
theorem radius_validation_truncates (geo : ℚ → ℚ → ℚ → ℚ → ℚ)
    (uLat uLon cLat cLon radius : ℚ) :
    (pyTrunc radius ≤ 0 →
      is_within_radius geo uLat uLon cLat cLon radius = .error .invalidConfiguration) ∧
    (0 < pyTrunc radius →
      validate_coordinates uLat uLon = true →
      validate_coordinates cLat cLon = true →
      is_within_radius geo uLat uLon cLat cLon radius =
        .ok (decide (geo uLat uLon cLat cLon ≤ ((pyTrunc radius : Int) : ℚ)),
             geo uLat uLon cLat cLon)) := by
  constructor
  · intro hle
    unfold is_within_radius
    rw [if_pos hle]
  · intro hpos hu hc
    exact is_within_radius_ok geo uLat uLon cLat cLon radius hu hc hpos

/-- C6 amended witness: a radius of 0 is rejected as invalid
configuration, while the non-integer radius 50.5 is truncated to 50 and
a 50.5 m distance is then judged outside it. -/
theorem radius_validation_truncates_witness :
    is_within_radius (fun _ _ _ _ => (50 : ℚ)) 41 69 41 69 0 =
      .error .invalidConfiguration ∧
    is_within_radius (fun _ _ _ _ => (505/10 : ℚ)) 41 69 41 69 ((101 : ℚ)/2) =
      .ok (false, 505/10) := by
  constructor
  · exact (radius_validation_truncates (fun _ _ _ _ => (50 : ℚ)) 41 69 41 69 0).1
      (by unfold pyTrunc; rw [if_pos le_rfl]; norm_num)
  · rw [(radius_validation_truncates (fun _ _ _ _ => (505/10 : ℚ)) 41 69 41 69
      ((101 : ℚ)/2)).2
      (by rw [pyTrunc_101_half]; norm_num)
      (validate_coordinates_of _ _ (by norm_num) (by norm_num) (by norm_num) (by norm_num))
      (validate_coordinates_of _ _ (by norm_num) (by norm_num) (by norm_num) (by norm_num))]
    rw [pyTrunc_101_half]
    have hb : decide ((505/10 : ℚ) ≤ ((50 : Int) : ℚ)) = false := by
      rw [decide_eq_false_iff_not]
      norm_num
    rw [hb]

theorem rowMatches_mkCheckInRow (u : Int) (lat lon : ℚ) (t lm : Nat) (cs : String) :
    rowMatches u (dateOf t) (mkCheckInRow u lat lon t lm cs) = true := by
  unfold rowMatches mkCheckInRow
  simp

theorem hasRecord_eq_false_iff (db : AttendanceDB) (u : Int) (d : Nat) :
    hasRecord db u d = false ↔ countFor db u d = 0 := by
  unfold hasRecord countFor
  rw [List.any_eq_false, List.length_eq_zero, List.filter_eq_nil_iff]

theorem countFor_append (db1 db2 : AttendanceDB) (u : Int) (d : Nat) :
    countFor (db1 ++ db2) u d = countFor db1 u d + countFor db2 u d := by
  unfold countFor
  rw [List.filter_append, List.length_append]

theorem check_in_fresh (db : AttendanceDB) (u : Int) (lat lon : ℚ)
    (t lm : Nat) (cs : String) (h : hasRecord db u (dateOf t) = false) :
    check_in db u lat lon t lm cs = (true, db ++ [mkCheckInRow u lat lon t lm cs]) := by
  unfold check_in
  rw [h]
  rfl

theorem check_in_dup (db : AttendanceDB) (u : Int) (lat lon : ℚ)
    (t lm : Nat) (cs : String) (h : hasRecord db u (dateOf t) = true) :
    check_in db u lat lon t lm cs = (false, db) := by
  unfold check_in
  rw [h]
  rfl

theorem runCheckIns_all_dup (db : AttendanceDB) (u : Int) (d : Nat)
    (reqs : List CheckInReq) (h : hasRecord db u d = true)
    (hall : ∀ r ∈ reqs, r.user = u ∧ dateOf r.t = d) :
    runCheckIns db reqs = (List.replicate reqs.length false, db) := by
  induction reqs with
  | nil => rfl
  | cons r rs ih =>
    have hr := hall r (List.mem_cons_self r rs)
    have hstep : check_in db r.user r.lat r.lon r.t r.lateMinutes r.checkinStatus =
        (false, db) := by
      apply check_in_dup
      rw [hr.1, hr.2]
      exact h
    unfold runCheckIns
    rw [hstep]
    dsimp only
    rw [ih (fun x hx => hall x (List.mem_cons_of_mem r hx))]
    rfl

theorem countFor_check_in_le (db : AttendanceDB) (u : Int) (d : Nat)
    (lat lon : ℚ) (t lm : Nat) (cs : String)
    (ht : dateOf t = d) (hle : countFor db u d ≤ 1) :
    countFor (check_in db u lat lon t lm cs).2 u d ≤ 1 := by
  cases hrec : hasRecord db u (dateOf t) with
  | true => rw [check_in_dup db u lat lon t lm cs hrec]; exact hle
  | false =>
    rw [check_in_fresh db u lat lon t lm cs hrec]
    have h0 : countFor db u d = 0 := by
      rw [← hasRecord_eq_false_iff, ← ht]
      exact hrec
    have h1 : countFor [mkCheckInRow u lat lon t lm cs] u d = 1 := by
      unfold countFor
      rw [← ht]
      simp [List.filter, rowMatches_mkCheckInRow]
    rw [countFor_append, h0, h1]

theorem countFor_runCheckIns_le (u : Int) (d : Nat) (reqs : List CheckInReq) :
    ∀ db : AttendanceDB, countFor db u d ≤ 1 →
      (∀ r ∈ reqs, r.user = u ∧ dateOf r.t = d) →
      countFor (runCheckIns db reqs).2 u d ≤ 1 := by
  induction reqs with
  | nil => exact fun db h _ => h
  | cons r rs ih =>
    intro db hle hall
    have hrr := hall r (List.mem_cons_self r rs)
    unfold runCheckIns
    dsimp only
    apply ih
    · rw [hrr.1]
      exact countFor_check_in_le db u d r.lat r.lon r.t r.lateMinutes r.checkinStatus hrr.2 hle
    · exact fun x hx => hall x (List.mem_cons_of_mem r hx)

/-- C1: starting from a store with no attendance row for (user, date),
any non-empty sequence of check-in attempts by that user on that date
yields success for the first attempt and a duplicate rejection for every
later one; the final store is exactly the initial store plus the single
row the first attempt created (no overwrite and no second row), it holds
exactly one row for (user, date), and any run of same-date attempts
preserves the at-most-one-row-per-(user, date) invariant, which is
enforced by the insert-time uniqueness test itself rather than a prior
check-then-act. -/
theorem checkin_unique_per_user_date (db : AttendanceDB) (u : Int) (d : Nat)
    (req : CheckInReq) (reqs : List CheckInReq)
    (hfresh : countFor db u d = 0)
    (hall : ∀ r ∈ req :: reqs, r.user = u ∧ dateOf r.t = d) :
    runCheckIns db (req :: reqs) =
      (true :: List.replicate reqs.length false,
       db ++ [mkCheckInRow req.user req.lat req.lon req.t req.lateMinutes req.checkinStatus]) ∧
    countFor (runCheckIns db (req :: reqs)).2 u d = 1 ∧
    (∀ db2 : AttendanceDB, ∀ reqs2 : List CheckInReq,
      countFor db2 u d ≤ 1 → (∀ r ∈ reqs2, r.user = u ∧ dateOf r.t = d) →
      countFor (runCheckIns db2 reqs2).2 u d ≤ 1) := by
  have hr := hall req (List.mem_cons_self req reqs)
  have hfr : hasRecord db u d = false := (hasRecord_eq_false_iff db u d).2 hfresh
  have hstep : check_in db req.user req.lat req.lon req.t req.lateMinutes req.checkinStatus =
      (true, db ++ [mkCheckInRow req.user req.lat req.lon req.t req.lateMinutes req.checkinStatus]) := by
    apply check_in_fresh
    rw [hr.1, hr.2]
    exact hfr
  have hcount1 : countFor (db ++
      [mkCheckInRow req.user req.lat req.lon req.t req.lateMinutes req.checkinStatus]) u d = 1 := by
    have h1 : countFor [mkCheckInRow req.user req.lat req.lon req.t req.lateMinutes
        req.checkinStatus] u d = 1 := by
      unfold countFor
      rw [← hr.2, ← hr.1]
      simp [List.filter, rowMatches_mkCheckInRow]
    rw [countFor_append, hfresh, h1]
  have hrec1 : hasRecord (db ++
      [mkCheckInRow req.user req.lat req.lon req.t req.lateMinutes req.checkinStatus]) u d = true := by
    cases hb : hasRecord (db ++
        [mkCheckInRow req.user req.lat req.lon req.t req.lateMinutes req.checkinStatus]) u d with
    | true => rfl
    | false =>
      have := (hasRecord_eq_false_iff _ u d).1 hb
      omega
  have hrun : runCheckIns db (req :: reqs) =
      (true :: List.replicate reqs.length false,
       db ++ [mkCheckInRow req.user req.lat req.lon req.t req.lateMinutes req.checkinStatus]) := by
    unfold runCheckIns
    rw [hstep]
    dsimp only
    rw [runCheckIns_all_dup _ u d reqs hrec1 (fun x hx => hall x (List.mem_cons_of_mem req hx))]
  refine ⟨hrun, ?_, ?_⟩
  · rw [hrun]
    exact hcount1
  · exact fun db2 reqs2 h1 h2 => countFor_runCheckIns_le u d reqs2 db2 h1 h2

/-- C1 witness: from an empty store, two same-day check-in attempts by
user 7 produce one success then one duplicate rejection, and exactly one
row is stored for (7, day 0). -/
theorem checkin_unique_per_user_date_witness :
    runCheckIns [] [⟨7, 1, 2, mkInstant 0 8 5 0, 0, "on_time"⟩,
                    ⟨7, 3, 4, mkInstant 0 9 0 0, 45, "very_late"⟩] =
      ([true, false], [] ++ [mkCheckInRow 7 1 2 (mkInstant 0 8 5 0) 0 "on_time"]) ∧
    countFor (runCheckIns [] [⟨7, 1, 2, mkInstant 0 8 5 0, 0, "on_time"⟩,
                    ⟨7, 3, 4, mkInstant 0 9 0 0, 45, "very_late"⟩]).2 7 0 = 1 :=
  have h := checkin_unique_per_user_date [] 7 0
    ⟨7, 1, 2, mkInstant 0 8 5 0, 0, "on_time"⟩
    [⟨7, 3, 4, mkInstant 0 9 0 0, 45, "very_late"⟩]
    (by decide) (by decide)
  ⟨h.1, h.2.1⟩

/-- First store state of the double-check-out scenario: user 7 checked
in at 08:05 on day 0. -/
def doubleCheckoutState1 : Bool × AttendanceDB :=
  check_in [] 7 1 2 (mkInstant 0 8 5 0) 0 "on_time"

/-- Second store state: first check-out at 17:00 on day 0. -/
def doubleCheckoutState2 : Bool × AttendanceDB :=
  check_out doubleCheckoutState1.2 7 1 2 (mkInstant 0 17 0 0)

/-- Third store state: second check-out at 17:30 on the same day. -/
def doubleCheckoutState3 : Bool × AttendanceDB :=
  check_out doubleCheckoutState2.2 7 3 4 (mkInstant 0 17 30 0)

/-- C2 counterexample: after a check-in and a successful check-out, a
second check-out on the same date returns success — not the
no-open-check-in failure the claim requires — and it overwrites the
stored check-out timestamp (17:00 becomes 17:30), modifying the closed
record. -/
theorem double_checkout_succeeds :
    doubleCheckoutState2.1 = true ∧
    doubleCheckoutState3.1 = true ∧
    doubleCheckoutState2.2.map (fun r => r.check_out_time) = [some (mkInstant 0 17 0 0)] ∧
    doubleCheckoutState3.2.map (fun r => r.check_out_time) = [some (mkInstant 0 17 30 0)] := by
  refine ⟨rfl, rfl, rfl, rfl⟩

theorem rowMatches_applyCheckOut (u : Int) (d : Nat) (t : Nat) (lat lon th : ℚ)
    (r : AttendanceRow) :
    rowMatches u d (applyCheckOut t lat lon th r) = rowMatches u d r := rfl

theorem hasRecord_of_find? (db : AttendanceDB) (u : Int) (d : Nat)
    (row : AttendanceRow) (hf : List.find? (rowMatches u d) db = some row) :
    hasRecord db u d = true := by
  unfold hasRecord
  rw [List.any_eq_true]
  exact ⟨row, List.mem_of_find?_eq_some hf, List.find?_some hf⟩

theorem find?_of_hasRecord (db : AttendanceDB) (u : Int) (d : Nat)
    (h : hasRecord db u d = true) :
    ∃ row, List.find? (rowMatches u d) db = some row := by
  unfold hasRecord at h
  rw [List.any_eq_true] at h
  obtain ⟨x, hx, hp⟩ := h
  cases hf : List.find? (rowMatches u d) db with
  | some row => exact ⟨row, rfl⟩
  | none =>
    rw [List.find?_eq_none] at hf
    exact absurd hp (hf x hx)

theorem hasRecord_map_checkout (db : AttendanceDB) (u : Int) (d : Nat)
    (t : Nat) (lat lon th : ℚ) :
    hasRecord (List.map (fun r => if rowMatches u d r then applyCheckOut t lat lon th r
      else r) db) u d = hasRecord db u d := by
  unfold hasRecord
  rw [List.any_map]
  have hfun : (rowMatches u d ∘ fun r =>
      if rowMatches u d r then applyCheckOut t lat lon th r else r) = rowMatches u d := by
    funext r
    by_cases h : rowMatches u d r = true
    · simp only [Function.comp_apply, if_pos h, rowMatches_applyCheckOut]
    · simp only [Function.comp_apply, if_neg h]
  rw [hfun]

theorem checkout_hasRecord_after (db : AttendanceDB) (u : Int) (lat lon : ℚ)
    (t : Nat) (row : AttendanceRow)
    (hf : List.find? (rowMatches u (dateOf t)) db = some row) :
    hasRecord (check_out db u lat lon t).2 u (dateOf t) = true := by
  unfold check_out
  dsimp only
  rw [hf]
  dsimp only
  rw [hasRecord_map_checkout]
  exact hasRecord_of_find? db u (dateOf t) row hf

/-- C2 amended: `check_out` fails (returning false and leaving the store
unchanged) exactly when no attendance row exists for (user, date of
timestamp); when a row exists, check-out succeeds — and a second
check-out on the same date succeeds again, rather than being rejected,
overwriting the record's check-out fields. -/
theorem check_out_succeeds_of_find? (db : AttendanceDB) (u : Int)
    (lat lon : ℚ) (t : Nat) (row : AttendanceRow)
    (hf : List.find? (rowMatches u (dateOf t)) db = some row) :
    (check_out db u lat lon t).1 = true := by
  unfold check_out
  dsimp only
  rw [hf]

theorem checkout_no_idempotent_rejection (db : AttendanceDB) (u : Int)
    (lat lon : ℚ) (t : Nat) :
    (hasRecord db u (dateOf t) = false → check_out db u lat lon t = (false, db)) ∧
    (hasRecord db u (dateOf t) = true →
      (check_out db u lat lon t).1 = true ∧
      ∀ lat2 lon2 : ℚ, ∀ t2 : Nat, dateOf t2 = dateOf t →
        (check_out (check_out db u lat lon t).2 u lat2 lon2 t2).1 = true) := by
  constructor
  · intro h
    have hf : List.find? (rowMatches u (dateOf t)) db = none := by
      rw [List.find?_eq_none]
      unfold hasRecord at h
      rw [List.any_eq_false] at h
      exact h
    unfold check_out
    dsimp only
    rw [hf]
  · intro h
    obtain ⟨row, hf⟩ := find?_of_hasRecord db u (dateOf t) h
    refine ⟨check_out_succeeds_of_find? db u lat lon t row hf, ?_⟩
    intro lat2 lon2 t2 ht2
    have hrec2 : hasRecord (check_out db u lat lon t).2 u (dateOf t2) = true := by
      rw [ht2]
      exact checkout_hasRecord_after db u lat lon t row hf
    obtain ⟨row2, hf2⟩ := find?_of_hasRecord _ u (dateOf t2) hrec2
    exact check_out_succeeds_of_find? _ u lat2 lon2 t2 row2 hf2

/-- C2 amended witness: with an empty store a check-out fails and
changes nothing; with a checked-in row for (7, day 0), a first and a
second check-out on day 0 both report success. -/
theorem checkout_no_idempotent_rejection_witness :
    check_out [] 7 1 2 (mkInstant 0 17 0 0) = (false, []) ∧
    (check_out doubleCheckoutState1.2 7 1 2 (mkInstant 0 17 0 0)).1 = true ∧
    (check_out (check_out doubleCheckoutState1.2 7 1 2 (mkInstant 0 17 0 0)).2
      7 3 4 (mkInstant 0 17 30 0)).1 = true :=
  have h2 := (checkout_no_idempotent_rejection doubleCheckoutState1.2 7 1 2
    (mkInstant 0 17 0 0)).2 (by decide)
  ⟨(checkout_no_idempotent_rejection [] 7 1 2 (mkInstant 0 17 0 0)).1 (by decide),
   h2.1,
   h2.2 3 4 (mkInstant 0 17 30 0) (by decide)⟩

/-- C9: the store operations are total and route every modelled internal
exception (a missing `Config.now`/`Config.today` attribute or a database
error) to the failure value: `check_in` and `check_out` return false with
the store unchanged, `get_today_status` returns none; and a caller
cannot distinguish an absent record from a failed lookup, since both
return none. -/
theorem store_operations_total (env : PyEnv) (db : AttendanceDB) (u : Int)
    (lat lon : ℚ) (tArg : Option Nat) (tNow : Nat) (lm : Nat) (cs : String)
    (d : Nat) :
    (env.nowRaises = true ∨ env.dbRaises = true →
      check_in_total env db u lat lon none tNow lm cs = (false, db) ∧
      check_out_total env db u lat lon none tNow = (false, db) ∧
      get_today_status_total env db u d = none) ∧
    (env.dbRaises = true →
      check_in_total env db u lat lon tArg tNow lm cs = (false, db) ∧
      check_out_total env db u lat lon tArg tNow = (false, db)) ∧
    (hasRecord db u d = false →
      get_today_status_total ⟨false, false⟩ db u d = none) ∧
    get_today_status_total ⟨false, true⟩ db u d = none := by
  obtain ⟨nw, dbr⟩ := env
  refine ⟨?_, ?_, ?_, rfl⟩
  · intro h
    cases nw <;> cases dbr
    · simp at h
    · exact ⟨rfl, rfl, rfl⟩
    · exact ⟨rfl, rfl, rfl⟩
    · exact ⟨rfl, rfl, rfl⟩
  · intro h
    cases h
    cases nw <;> cases tArg <;> exact ⟨rfl, rfl⟩
  · intro h
    show List.find? (rowMatches u d) db = none
    rw [List.find?_eq_none]
    unfold hasRecord at h
    rw [List.any_eq_false] at h
    exact h

/-- C9 witness: with a raising `Config.now`, a check-in on an empty
store fails with the store unchanged; with a healthy environment the
lookup on an empty store returns none, and with a failing database the
lookup also returns none. -/
theorem store_operations_total_witness :
    check_in_total ⟨true, false⟩ [] 7 1 2 none 0 0 "on_time" = (false, []) ∧
    get_today_status_total ⟨false, false⟩ [] 7 0 = none ∧
    get_today_status_total ⟨false, true⟩ [] 7 0 = none :=
  have h := store_operations_total ⟨true, false⟩ [] 7 1 2 none 0 0 "on_time" 0
  ⟨(h.1 (Or.inl rfl)).1, h.2.2.1 (by decide), h.2.2.2⟩

end AtnBot
